import Mathlib

/-!
Verification of the lua-lolhtml bridge (src/lolhtml.c): a shallow embedding of
the callback-marshaling and lifetime-safety layer of the Lua binding for the
lol-html streaming rewriter, together with proofs of the specified properties.

The native lol-html engine is external to the repository; it is represented by
its observable outcomes at the C API boundary (return codes, the one-shot
`take_last_error` slot, output flushes handed to the sink).  Lua VM values are
represented by an inductive type, and the Lua stack discipline of the bridge is
represented by the data each C function leaves for its caller.
-/

/-- A native pointer, abstractly. -/
abbrev Ptr := Nat

/-- A pointer to a constructed `lol_html_rewriter_t` engine instance. -/
abbrev EnginePtr := Nat

/-- A Lua value, as far as the bridge inspects values.  `int n` is any
`LUA_TNUMBER` with an integer representation (so `lua_tointegerx` succeeds);
`numNonInt` is a `LUA_TNUMBER` without one; `fn` is a function identified by an
opaque id; `other` stands for tables, userdata, threads. -/
inductive LuaValue where
  | nil
  | boolean (b : Bool)
  | int (n : Int)
  | numNonInt
  | str (s : String)
  | fn (f : Nat)
  | other
deriving DecidableEq, Repr

/-- The boxed-pointer userdata used for every transient handle: the C side
allocates `void**` with a metatable named `tname`; the inner pointer is set to
`NULL` (here `none`) when the handle is invalidated (src/lolhtml.c:102). -/
structure Udata where
  tname : String
  ptr : Option Ptr
deriving DecidableEq, Repr

/-- Result of calling a handle method from Lua: either the C function raises a
Lua error (`luaL_argerror` / `luaL_error`) or it returns a value. -/
inductive MethodOutcome (α : Type) where
  | raised (msg : String)
  | ret (v : α)
deriving DecidableEq, Repr

/-- The message of `luaL_argerror` at src/lolhtml.c:76. -/
def lifetimeErrorMsg : String := "attempt to use a value past its lifetime"

/-- Embeds `check_valid_udata` (src/lolhtml.c:73-79): `luaL_checkudata` first raises a
type error on a metatable mismatch; then, if the boxed pointer was `NULL`-ed,
it raises the use-past-lifetime error; otherwise it yields the pointer. -/
def check_valid_udata (tname : String) (u : Udata) : MethodOutcome Ptr :=
  if u.tname = tname then
    match u.ptr with
    | none => .raised lifetimeErrorMsg
    | some p => .ret p
  else .raised (tname ++ " expected")

/-- Every per-kind accessor/mutator in src/lolhtml.c (doctype, comment,
text_chunk, doc_end, element methods) first calls `check_valid_udata` on its
self argument and only then runs its native body; this combinator captures
that shape. -/
def handle_method {α : Type} (tname : String) (u : Udata) (body : Ptr → MethodOutcome α) :
    MethodOutcome α :=
  match check_valid_udata tname u with
  | .raised m => .raised m
  | .ret p => body p

/-- Outcome of `lua_pcall` on a host callback: normal return of a value (a
callback returning no value yields `nil`), or a raised error value. -/
inductive HostOutcome where
  | ok (v : LuaValue)
  | err (e : LuaValue)

/-- Embeds `lol_html_rewriter_directive_t`: the control directive handed back to the
engine.  `cont` is `LOL_HTML_CONTINUE`, `stop` is `LOL_HTML_STOP`. -/
inductive Directive where
  | cont
  | stop
deriving DecidableEq, Repr

/-- Value of `LOL_HTML_CONTINUE` in lol_html.h (exported as `CONTINUE`). -/
def LOL_HTML_CONTINUE : Int := 0

/-- Value of `LOL_HTML_STOP` in lol_html.h (exported as `STOP`). -/
def LOL_HTML_STOP : Int := 1

/-- The error message pushed at src/lolhtml.c:131. -/
def invalidHandlerReturnMsg : String := "invalid content handler return"

/-- The return-value interpretation of src/lolhtml.c:110-132: `nil` means
continue; an integer equal to one of the two sentinels is taken verbatim;
everything else (wrong type, non-integer number, out-of-range integer) is the
"invalid content handler return" error. -/
def directive_of_return : LuaValue → Except LuaValue Directive
  | .nil => .ok .cont
  | .int n =>
      if n = LOL_HTML_CONTINUE then .ok .cont
      else if n = LOL_HTML_STOP then .ok .stop
      else .error (.str invalidHandlerReturnMsg)
  | _ => .error (.str invalidHandlerReturnMsg)

/-- What a single dispatch leaves behind: the directive returned to the native
engine, the error value left on the Lua stack if any (the calling `write`/`end`
detects it by the stack-depth change), and the (shared, mutated in place)
parameter userdata as it stands after the dispatch. -/
structure DispatchResult where
  directive : Directive
  pushedError : Option LuaValue
  handle : Udata
deriving DecidableEq, Repr

/-- Embeds `do_document_content_callback` (src/lolhtml.c:82-133): allocate the boxed
pointer userdata for the native object, call the host callback under
`lua_pcall`, then set the boxed pointer to `NULL` unconditionally, and finally
interpret the outcome.  On a raised error the error value is left on the stack
and `LOL_HTML_STOP` is returned; on an unrecognized return value the literal
error message is left on the stack and `LOL_HTML_STOP` is returned. -/
def do_document_content_callback (param_type : String) (cb : Udata → HostOutcome)
    (param : Ptr) : DispatchResult :=
  let lua_param : Udata := { tname := param_type, ptr := some param }
  let invalidated : Udata := { tname := param_type, ptr := none }
  match cb lua_param with
  | .err e => { directive := .stop, pushedError := some e, handle := invalidated }
  | .ok v =>
      match directive_of_return v with
      | .ok d => { directive := d, pushedError := none, handle := invalidated }
      | .error msg => { directive := .stop, pushedError := some msg, handle := invalidated }

/-- Embeds `doctype_handler` (src/lolhtml.c:135-139). -/
def doctype_handler : (Udata → HostOutcome) → Ptr → DispatchResult :=
  do_document_content_callback "lolhtml.doctype"

/-- Embeds `comment_handler` (src/lolhtml.c:141-145). -/
def comment_handler : (Udata → HostOutcome) → Ptr → DispatchResult :=
  do_document_content_callback "lolhtml.comment"

/-- Embeds `text_chunk_handler` (src/lolhtml.c:147-151). -/
def text_chunk_handler : (Udata → HostOutcome) → Ptr → DispatchResult :=
  do_document_content_callback "lolhtml.text_chunk"

/-- Embeds `doc_end_handler` (src/lolhtml.c:153-157). -/
def doc_end_handler : (Udata → HostOutcome) → Ptr → DispatchResult :=
  do_document_content_callback "lolhtml.doc_end"

/-- Embeds `element_handler` (src/lolhtml.c:159-163). -/
def element_handler : (Udata → HostOutcome) → Ptr → DispatchResult :=
  do_document_content_callback "lolhtml.element"

/-- A native engine operation performed by a bridge function: the calls into
the lol-html C API that touch a rewriter instance. -/
inductive EngineOp where
  | write (p : EnginePtr)
  | endOp (p : EnginePtr)
  | free (p : EnginePtr)
deriving DecidableEq, Repr

/-- Lua-visible result of a `session:write` / `session:close` method: either
`self` (success) or the pair `nil, err`. -/
inductive LuaRet where
  | self
  | nilErr (e : LuaValue)
deriving DecidableEq, Repr

/-- Observable outcome of one native `lol_html_rewriter_write`/`_end` call that
returns to the bridge: the status code `rc`, the error value a dispatched
handler callback left on the Lua stack if any (the bridge observes it as a
stack-depth change around the native call), and the message that
`lol_html_take_last_error` would currently yield. -/
structure NativeOutcome where
  rc : Int
  stackError : Option LuaValue
  lastError : Option String
deriving DecidableEq, Repr

/-- Embeds `push_last_error` (src/lolhtml.c:39-50): the error message fetched via the
one-shot `lol_html_take_last_error`, or "unknown error" when the slot is
empty. -/
def pushLastError : Option String → LuaValue
  | none => .str "unknown error"
  | some m => .str m

/-- Embeds `return_self_or_stack_error` (src/lolhtml.c:741-765): on `rc = 0` return
self and leave the boxed engine pointer alone; otherwise free the engine, set
the boxed pointer to `NULL`, and return `nil` paired with either the error
value found on the stack (a Lua runtime error from a callback) or, when the
stack did not move, the engine message from `take_last_error`. -/
def return_self_or_stack_error (out : NativeOutcome) (box : Option EnginePtr) :
    LuaRet × Option EnginePtr × List EngineOp :=
  if out.rc = 0 then (.self, box, [])
  else
    let ops := match box with
      | some p => [EngineOp.free p]
      | none => []
    match out.stackError with
    | none => (.nilErr (pushLastError out.lastError), none, ops)
    | some e => (.nilErr e, none, ops)

/-- Embeds `rewriter_write` (src/lolhtml.c:767-783): a `NULL` boxed pointer fails
fast with "broken rewriter" and performs no native call; otherwise the native
write runs and the result goes through `return_self_or_stack_error`. -/
def rewriter_write (out : NativeOutcome) (box : Option EnginePtr) :
    LuaRet × Option EnginePtr × List EngineOp :=
  match box with
  | none => (.nilErr (.str "broken rewriter"), none, [])
  | some p =>
      let r := return_self_or_stack_error out (some p)
      (r.1, r.2.1, EngineOp.write p :: r.2.2)

/-- Embeds `rewriter_end` (src/lolhtml.c:785-804): a `NULL` boxed pointer fails fast
with "broken rewriter"; otherwise the native `end` runs; on success the engine
is freed and the box `NULL`-ed before `return_self_or_stack_error` (which then
frees nothing), on failure `return_self_or_stack_error` frees it. -/
def rewriter_end (out : NativeOutcome) (box : Option EnginePtr) :
    LuaRet × Option EnginePtr × List EngineOp :=
  match box with
  | none => (.nilErr (.str "broken rewriter"), none, [])
  | some p =>
      if out.rc = 0 then
        let r := return_self_or_stack_error out none
        (r.1, none, EngineOp.endOp p :: EngineOp.free p :: r.2.2)
      else
        let r := return_self_or_stack_error out (some p)
        (r.1, r.2.1, EngineOp.endOp p :: r.2.2)

/-- Embeds `rewriter_destroy` (src/lolhtml.c:806-813), the `__gc` finalizer: free the
engine only if the boxed pointer is still live, then `NULL` it. -/
def rewriter_destroy (box : Option EnginePtr) : Option EnginePtr × List EngineOp :=
  match box with
  | none => (none, [])
  | some p => (none, [EngineOp.free p])

/-- One host-side call on a session, with the native outcome the engine would
produce if it is actually consulted. -/
inductive SessionCall where
  | write (out : NativeOutcome)
  | endCall (out : NativeOutcome)
  | destroy

/-- Effect of one session call on the boxed engine pointer, together with the
native engine operations it performs. -/
def stepSession (box : Option EnginePtr) : SessionCall → Option EnginePtr × List EngineOp
  | .write out => ((rewriter_write out box).2.1, (rewriter_write out box).2.2)
  | .endCall out => ((rewriter_end out box).2.1, (rewriter_end out box).2.2)
  | .destroy => rewriter_destroy box

/-- Run a whole sequence of session calls, accumulating the engine operations
performed. -/
def runSession (box : Option EnginePtr) : List SessionCall → Option EnginePtr × List EngineOp
  | [] => (box, [])
  | c :: cs =>
      let s := stepSession box c
      let r := runSession s.1 cs
      (r.1, s.2 ++ r.2)

/-- Number of times the engine instance `p` is freed in a list of operations. -/
def countFree (p : EnginePtr) : List EngineOp → Nat
  | [] => 0
  | o :: rest => (if o = EngineOp.free p then 1 else 0) + countFree p rest

theorem countFree_append (p : EnginePtr) (l₁ l₂ : List EngineOp) :
    countFree p (l₁ ++ l₂) = countFree p l₁ + countFree p l₂ := by
  induction l₁ with
  | nil => simp [countFree]
  | cons o rest ih => simp [countFree, ih]; omega

theorem runSession_none (calls : List SessionCall) : runSession none calls = (none, []) := by
  induction calls with
  | nil => rfl
  | cons c cs ih =>
      cases c with
      | write out => simp [runSession, stepSession, rewriter_write, ih]
      | endCall out => simp [runSession, stepSession, rewriter_end, ih]
      | destroy => simp [runSession, stepSession, rewriter_destroy, ih]

/-- Embeds `handler_data_t` (src/lolhtml.c:23-27): the userdata handed to the native
registration, holding the weak-registry slot of the owning builder and the
uservalue index of the callback. -/
structure HandlerData where
  builder_index : Nat
  callback_index : Nat
deriving DecidableEq, Repr

/-- An entry anchored in the builder userdata's uservalue table via `luaL_ref`:
either a callback function or a `handler_data_t` box. -/
inductive Anchor where
  | func (f : Nat)
  | hdata (h : HandlerData)
deriving DecidableEq, Repr

/-- Embeds `luaL_ref` on the uservalue table: always allocates a fresh integer slot
for the pushed value and returns it. -/
def luaL_ref (uv : List Anchor) (a : Anchor) : Nat × List Anchor :=
  (uv.length, uv ++ [a])

/-- Embeds `create_handler` (src/lolhtml.c:561-587): if the table field is a function,
allocate a `handler_data_t`, anchor the callback and the handler data in the
builder's uservalue via `luaL_ref`, and return the handler data; any other
value (including an absent field, which reads as `nil`) yields `NULL`. -/
def create_handler (builderRef : Nat) (uv : List Anchor) (field : LuaValue) :
    Option HandlerData × List Anchor :=
  match field with
  | .fn f =>
      let r₁ := luaL_ref uv (.func f)
      let h : HandlerData := { builder_index := builderRef, callback_index := r₁.1 }
      let r₂ := luaL_ref r₁.2 (.hdata h)
      (some h, r₂.2)
  | _ => (none, uv)

/-- The Lua table of callbacks passed to `add_document_content_handlers`; a
field that is absent from the table reads as `LuaValue.nil`. -/
structure HandlerTable where
  doctype_handler : LuaValue
  comment_handler : LuaValue
  text_handler : LuaValue
  doc_end_handler : LuaValue
deriving DecidableEq, Repr

/-- One `lol_html_rewriter_builder_add_document_content_handlers` call as the
native engine receives it: per event kind, either a (handler fn, handler data)
pair or a `NULL` registration. -/
structure NativeReg where
  doctype : Option HandlerData
  comment : Option HandlerData
  text : Option HandlerData
  doc_end : Option HandlerData
deriving DecidableEq, Repr

/-- The bridge-relevant state of a builder: its weak-registry slot, the
uservalue table anchoring callbacks and handler data, and the sequence of
registration calls passed to the native builder so far. -/
structure BuilderState where
  builderRef : Nat
  uv : List Anchor
  nativeRegs : List NativeReg
deriving DecidableEq, Repr

/-- Embeds `rewriter_builder_add_document_content_handlers` (src/lolhtml.c:589-609):
build the four optional handler registrations from the table and pass them to
the native builder in one `add_document_content_handlers` call.  Nothing is
removed or replaced: the native call is appended to those already made. -/
def rewriter_builder_add_document_content_handlers (b : BuilderState) (tbl : HandlerTable) :
    BuilderState :=
  let d := create_handler b.builderRef b.uv tbl.doctype_handler
  let c := create_handler b.builderRef d.2 tbl.comment_handler
  let t := create_handler b.builderRef c.2 tbl.text_handler
  let e := create_handler b.builderRef t.2 tbl.doc_end_handler
  { b with uv := e.2,
           nativeRegs := b.nativeRegs ++
             [{ doctype := d.1, comment := c.1, text := t.1, doc_end := e.1 }] }

/-- The four document-level event kinds. -/
inductive DocEventKind where
  | doctype
  | comment
  | text
  | doc_end
deriving DecidableEq, Repr

/-- Table field for a given document-level event kind. -/
def HandlerTable.field (tbl : HandlerTable) : DocEventKind → LuaValue
  | .doctype => tbl.doctype_handler
  | .comment => tbl.comment_handler
  | .text => tbl.text_handler
  | .doc_end => tbl.doc_end_handler

/-- Registration slot for a given document-level event kind: `none` is the
`NULL` (fn, userdata) pair, under which the engine has no bridge entry point to
invoke for that kind. -/
def NativeReg.field (r : NativeReg) : DocEventKind → Option HandlerData
  | .doctype => r.doctype
  | .comment => r.comment
  | .text => r.text
  | .doc_end => r.doc_end

/-- The boxed `lol_html_attributes_iterator_t*`: the native iterator is
represented by the list of (name, value) attribute pairs it has left to
produce; `none` is the `NULL`-ed box. -/
abbrev NativeAttrIter := List (String × String)

/-- Lua-visible result of one `attribute_iterator_next` call. -/
inductive IterRet where
  | pair (name value : String)
  | nilRet
  | raised (msg : String)
deriving DecidableEq, Repr

/-- Embeds `attribute_iterator_next` (src/lolhtml.c:383-405): `check_valid_udata`
raises past-lifetime on a `NULL`-ed box; at end of the attributes the native
iterator is freed eagerly and the box `NULL`-ed, returning `nil`; otherwise the
next (name, value) pair is returned.  The `Nat` counts native
`lol_html_attributes_iterator_free` calls. -/
def attribute_iterator_next (box : Option NativeAttrIter) :
    IterRet × Option NativeAttrIter × Nat :=
  match box with
  | none => (.raised lifetimeErrorMsg, none, 0)
  | some [] => (.nilRet, none, 1)
  | some (a :: rest) => (.pair a.1 a.2, some rest, 0)

/-- Embeds `attribute_iterator_destroy` (src/lolhtml.c:407-414), the `__gc`
finalizer: free the native iterator only if the box is still live, then
`NULL` it. -/
def attribute_iterator_destroy (box : Option NativeAttrIter) :
    Option NativeAttrIter × Nat :=
  match box with
  | none => (none, 0)
  | some _ => (none, 1)

/-- One host-side call on an attribute iterator object. -/
inductive IterCall where
  | next
  | destroy

/-- Effect of one iterator call on the boxed pointer, with its free count. -/
def stepIter (box : Option NativeAttrIter) : IterCall → Option NativeAttrIter × Nat
  | .next => ((attribute_iterator_next box).2.1, (attribute_iterator_next box).2.2)
  | .destroy => attribute_iterator_destroy box

/-- Run a sequence of iterator calls, accumulating native free calls. -/
def runIter (box : Option NativeAttrIter) : List IterCall → Option NativeAttrIter × Nat
  | [] => (box, 0)
  | c :: cs =>
      let s := stepIter box c
      let r := runIter s.1 cs
      (r.1, s.2 + r.2)

/-- Embeds `sink_callback` (src/lolhtml.c:653-664) invokes the host sink with plain
`lua_call` (the source carries a pcall TODO): a raising sink does not return
to the native engine — the Lua error unwinds by longjmp through the native
frames.  `some e` is that unwinding error. -/
def sink_callback (sink : Nat → String → HostOutcome) (i : Nat) (chunk : String) :
    Option LuaValue :=
  match sink i chunk with
  | .ok _ => none
  | .err e => some e

/-- Run the sink over the output flushes a native write produces, numbering the
invocations; the first raising sink aborts the whole native call by longjmp. -/
def runSink (sink : Nat → String → HostOutcome) : Nat → List String → Option LuaValue
  | _, [] => none
  | i, c :: rest =>
      match sink_callback sink i c with
      | some e => some e
      | none => runSink sink (i + 1) rest

/-- Result of a `session:write` call as the host observes it: a normal return
(self or nil+err), or a Lua error raised out of the call. -/
inductive WriteCallResult where
  | returned (r : LuaRet)
  | raised (e : LuaValue)
deriving DecidableEq, Repr

/-- Embeds `rewriter_write` including the sink path: if a sink invocation raises, the
error longjmps past `lol_html_rewriter_write` and out of `rewriter_write`
itself, so the code after the native call (`return_self_or_stack_error`, which
frees the engine and `NULL`s the box on error) never runs: the boxed pointer
is left untouched.  Otherwise the call returns `out` and proceeds as in
`rewriter_write`. -/
def rewriter_write_total (sink : Nat → String → HostOutcome) (flushes : List String)
    (out : NativeOutcome) (box : Option EnginePtr) :
    WriteCallResult × Option EnginePtr × List EngineOp :=
  match box with
  | none => (.returned (.nilErr (.str "broken rewriter")), none, [])
  | some p =>
      match runSink sink 0 flushes with
      | some e => (.raised e, some p, [EngineOp.write p])
      | none =>
          let r := return_self_or_stack_error out (some p)
          (.returned r.1, r.2.1, EngineOp.write p :: r.2.2)

/-- A sink that raises on its second invocation (spec §8's concrete
scenario). -/
def sink_failing_second : Nat → String → HostOutcome :=
  fun i _ => if i = 1 then .err (.str "sink error") else .ok .nil

theorem directive_of_return_invalid (v : LuaValue) (h₁ : v ≠ .nil)
    (h₂ : v ≠ .int LOL_HTML_CONTINUE) (h₃ : v ≠ .int LOL_HTML_STOP) :
    directive_of_return v = .error (.str invalidHandlerReturnMsg) := by
  cases v with
  | nil => exact absurd rfl h₁
  | int n =>
      have hn₂ : n ≠ LOL_HTML_CONTINUE := fun h => h₂ (by rw [h])
      have hn₃ : n ≠ LOL_HTML_STOP := fun h => h₃ (by rw [h])
      simp [directive_of_return, hn₂, hn₃]
  | boolean b => rfl
  | numNonInt => rfl
  | str s => rfl
  | fn f => rfl
  | other => rfl

theorem dispatch_handle_eq (param_type : String) (cb : Udata → HostOutcome) (param : Ptr) :
    (do_document_content_callback param_type cb param).handle
      = { tname := param_type, ptr := none } := by
  cases h : cb { tname := param_type, ptr := some param } with
  | err e => simp [do_document_content_callback, h]
  | ok v =>
      cases h₂ : directive_of_return v <;> simp [do_document_content_callback, h, h₂]

/-- C1: for every dispatched event (all five kinds go through
`do_document_content_callback`), the transient handle is invalidated (its
boxed pointer `NULL`-ed) once the callback has run, whether the callback
returned normally or raised, and every subsequent handle method — all of which
go through `check_valid_udata` — fails with the use-past-lifetime error
instead of ever reaching its native body. -/
theorem c1_handle_invalidated_after_dispatch {α : Type} (param_type : String)
    (cb : Udata → HostOutcome) (param : Ptr) (body : Ptr → MethodOutcome α) :
    (do_document_content_callback param_type cb param).handle.ptr = none
    ∧ handle_method param_type (do_document_content_callback param_type cb param).handle body
        = MethodOutcome.raised lifetimeErrorMsg := by
  rw [dispatch_handle_eq]
  exact ⟨rfl, by simp [handle_method, check_valid_udata]⟩

/-- C4: a callback returning no value (`nil`) produces `Continue` exactly as
the `CONTINUE` sentinel does; the `STOP` sentinel produces `Stop`; any other
return value produces `Stop` together with the "invalid content handler
return" error left on the stack, and that error is fatal to the innermost
`write`/`end` call: once the native call comes back with a failing status and
that error on the stack, the session returns it and is broken. -/
theorem c4_directive_interpretation (param_type : String) (p : Ptr) :
    (do_document_content_callback param_type (fun _ => .ok .nil) p).directive = Directive.cont
    ∧ (do_document_content_callback param_type (fun _ => .ok .nil) p).pushedError = none
    ∧ (do_document_content_callback param_type (fun _ => .ok (.int LOL_HTML_CONTINUE)) p).directive
        = Directive.cont
    ∧ (do_document_content_callback param_type (fun _ => .ok (.int LOL_HTML_CONTINUE)) p).pushedError
        = none
    ∧ (do_document_content_callback param_type (fun _ => .ok (.int LOL_HTML_STOP)) p).directive
        = Directive.stop
    ∧ (do_document_content_callback param_type (fun _ => .ok (.int LOL_HTML_STOP)) p).pushedError
        = none
    ∧ (∀ v : LuaValue, v ≠ .nil → v ≠ .int LOL_HTML_CONTINUE → v ≠ .int LOL_HTML_STOP →
        (do_document_content_callback param_type (fun _ => .ok v) p).directive = Directive.stop
        ∧ (do_document_content_callback param_type (fun _ => .ok v) p).pushedError
            = some (.str invalidHandlerReturnMsg))
    ∧ (∀ (out : NativeOutcome) (q : EnginePtr), out.rc ≠ 0 →
        out.stackError = some (.str invalidHandlerReturnMsg) →
        (return_self_or_stack_error out (some q)).1 = .nilErr (.str invalidHandlerReturnMsg)
        ∧ (return_self_or_stack_error out (some q)).2.1 = none) := by
  refine ⟨rfl, rfl, rfl, rfl, rfl, rfl, ?_, ?_⟩
  · intro v h₁ h₂ h₃
    have hv := directive_of_return_invalid v h₁ h₂ h₃
    constructor <;> simp [do_document_content_callback, hv]
  · intro out q hrc hst
    constructor <;> simp [return_self_or_stack_error, hrc, hst]

/-- C4 witness: a handler returning a boolean produces `Stop` plus the invalid
handler return error, which a failing write then surfaces while breaking the
session. -/
theorem c4_witness :
    (do_document_content_callback "lolhtml.text_chunk" (fun _ => .ok (.boolean true)) 0).directive
        = Directive.stop
    ∧ (do_document_content_callback "lolhtml.text_chunk" (fun _ => .ok (.boolean true)) 0).pushedError
        = some (.str invalidHandlerReturnMsg)
    ∧ (return_self_or_stack_error ⟨1, some (.str invalidHandlerReturnMsg), none⟩ (some 3)).2.1
        = none := by
  have h := c4_directive_interpretation "lolhtml.text_chunk" 0
  have h₇ := h.2.2.2.2.2.2.1 (.boolean true) (by decide) (by decide) (by decide)
  have h₈ := h.2.2.2.2.2.2.2 ⟨1, some (.str invalidHandlerReturnMsg), none⟩ 3 (by decide) rfl
  exact ⟨h₇.1, h₇.2, h₈.2⟩

/-- C5: a raising handler callback makes the dispatcher return `Stop` with the
original raised error value left on the stack, unmodified; the enclosing
`write`/`end` distinguishes the two error families by whether the stack moved
across the native call: if it did, the surfaced error is that very value; if
it did not, the surfaced error is the message fetched via `take_last_error`. -/
theorem c5_host_error_propagation (param_type : String) (p : Ptr) (e : LuaValue)
    (out : NativeOutcome) (q : EnginePtr) (hrc : out.rc ≠ 0) :
    (do_document_content_callback param_type (fun _ => .err e) p).directive = Directive.stop
    ∧ (do_document_content_callback param_type (fun _ => .err e) p).pushedError = some e
    ∧ (out.stackError = some e → (return_self_or_stack_error out (some q)).1 = .nilErr e)
    ∧ (out.stackError = none →
        (return_self_or_stack_error out (some q)).1 = .nilErr (pushLastError out.lastError)) := by
  refine ⟨rfl, rfl, ?_, ?_⟩
  · intro hst
    simp [return_self_or_stack_error, hrc, hst]
  · intro hst
    simp [return_self_or_stack_error, hrc, hst]

/-- C5 witness: a handler raising the value `"boom"` at dispatch, and the two
discrimination branches at concrete outcomes. -/
theorem c5_witness :
    (do_document_content_callback "lolhtml.element" (fun _ => .err (.str "boom")) 2).pushedError
        = some (.str "boom")
    ∧ (return_self_or_stack_error ⟨1, some (.str "boom"), none⟩ (some 5)).1
        = .nilErr (.str "boom")
    ∧ (return_self_or_stack_error ⟨1, none, some "engine says no"⟩ (some 5)).1
        = .nilErr (.str "engine says no") := by
  have h₁ := c5_host_error_propagation "lolhtml.element" 2 (.str "boom")
      ⟨1, some (.str "boom"), none⟩ 5 (by decide)
  have h₂ := c5_host_error_propagation "lolhtml.element" 2 (.str "boom")
      ⟨1, none, some "engine says no"⟩ 5 (by decide)
  exact ⟨h₁.2.1, h₁.2.2.1 rfl, h₂.2.2.2 rfl⟩

/-- C2: any error returned by a `write` or `end` call (engine error, host
callback error, or invalid-handler-return error — whichever error value the
failing native call leaves) frees the native engine at that moment and
`NULL`s the boxed pointer, and every subsequent `write`/`end` call on the
session returns the session-ended ("broken rewriter") error immediately,
performing no native engine operation at all. -/
theorem c2_error_breaks_session (out out₂ : NativeOutcome) (p : EnginePtr)
    (hrc : out.rc ≠ 0) :
    ((∃ e, (rewriter_write out (some p)).1 = LuaRet.nilErr e)
      ∧ (rewriter_write out (some p)).2.1 = none
      ∧ countFree p (rewriter_write out (some p)).2.2 = 1)
    ∧ ((∃ e, (rewriter_end out (some p)).1 = LuaRet.nilErr e)
      ∧ (rewriter_end out (some p)).2.1 = none
      ∧ countFree p (rewriter_end out (some p)).2.2 = 1)
    ∧ rewriter_write out₂ none = (LuaRet.nilErr (.str "broken rewriter"), none, [])
    ∧ rewriter_end out₂ none = (LuaRet.nilErr (.str "broken rewriter"), none, []) := by
  refine ⟨⟨?_, ?_, ?_⟩, ⟨?_, ?_, ?_⟩, rfl, rfl⟩ <;>
    cases hs : out.stackError <;>
      simp [rewriter_write, rewriter_end, return_self_or_stack_error, hrc, hs, countFree]

/-- C2 witness: a failing write at a concrete outcome breaks a concrete
session, and subsequent calls on the broken session fail fast. -/
theorem c2_witness :
    (rewriter_write ⟨1, none, some "boom"⟩ (some 7)).2.1 = none
    ∧ countFree 7 (rewriter_write ⟨1, none, some "boom"⟩ (some 7)).2.2 = 1
    ∧ rewriter_write ⟨0, none, none⟩ none
        = (LuaRet.nilErr (.str "broken rewriter"), none, []) := by
  have h := c2_error_breaks_session ⟨1, none, some "boom"⟩ ⟨0, none, none⟩ 7 (by decide)
  exact ⟨h.1.2.1, h.1.2.2, h.2.2.1⟩

theorem runSessionStep (box : Option EnginePtr) (c : SessionCall) (cs : List SessionCall) :
    runSession box (c :: cs)
      = ((runSession (stepSession box c).1 cs).1,
          (stepSession box c).2 ++ (runSession (stepSession box c).1 cs).2) := rfl

/-- C3: starting from a live session, along any sequence of `write`, `end`
(`close`) and disposal (`__gc`) calls, the native engine is freed exactly once
if the session reaches a terminal state (boxed pointer `NULL`-ed: successful
`end`, Broken transition, or disposal) and never before. -/
theorem c3_engine_freed_exactly_once (p : EnginePtr) (calls : List SessionCall) :
    countFree p (runSession (some p) calls).2
      = (if (runSession (some p) calls).1 = none then 1 else 0) := by
  induction calls with
  | nil => simp [runSession, countFree]
  | cons c cs ih =>
      cases c with
      | write out =>
          by_cases hrc : out.rc = 0
          · have hstep : stepSession (some p) (.write out) = (some p, [EngineOp.write p]) := by
              simp [stepSession, rewriter_write, return_self_or_stack_error, hrc]
            rw [runSessionStep, hstep]
            simp [countFree_append, countFree, ih]
          · cases hs : out.stackError <;>
              · have hstep : stepSession (some p) (.write out)
                    = (none, [EngineOp.write p, EngineOp.free p]) := by
                  simp [stepSession, rewriter_write, return_self_or_stack_error, hrc, hs]
                rw [runSessionStep, hstep, runSession_none]
                simp [countFree]
      | endCall out =>
          by_cases hrc : out.rc = 0
          · have hstep : stepSession (some p) (.endCall out)
                = (none, [EngineOp.endOp p, EngineOp.free p]) := by
              simp [stepSession, rewriter_end, return_self_or_stack_error, hrc]
            rw [runSessionStep, hstep, runSession_none]
            simp [countFree]
          · cases hs : out.stackError <;>
              · have hstep : stepSession (some p) (.endCall out)
                    = (none, [EngineOp.endOp p, EngineOp.free p]) := by
                  simp [stepSession, rewriter_end, return_self_or_stack_error, hrc, hs]
                rw [runSessionStep, hstep, runSession_none]
                simp [countFree]
      | destroy =>
          have hstep : stepSession (some p) .destroy = (none, [EngineOp.free p]) := rfl
          rw [runSessionStep, hstep, runSession_none]
          simp [countFree]

/-- C6, code behavior at the spec's concrete scenario: the sink raises on its
second invocation during a write that produces two output flushes.  Because
`sink_callback` invokes the sink with plain `lua_call` (src/lolhtml.c:661-662,
the source carries the pcall TODO), the host error unwinds by longjmp past the
native write: the write call raises the error instead of returning it as
`nil, err`, the engine is not freed, and the boxed pointer stays live — the
session is not Broken, and a subsequent write still reaches the native
engine instead of failing fast. -/
theorem c6_sink_error_escapes_write :
    rewriter_write_total sink_failing_second ["a", "b"] ⟨0, none, none⟩ (some 0)
      = (.raised (.str "sink error"), some 0, [EngineOp.write 0])
    ∧ countFree 0 (rewriter_write_total sink_failing_second ["a", "b"]
        ⟨0, none, none⟩ (some 0)).2.2 = 0
    ∧ rewriter_write ⟨0, none, none⟩ (some 0) = (.self, some 0, [EngineOp.write 0]) := by
  refine ⟨?_, by decide, by decide⟩
  decide

/-- A fresh builder as `rewriter_builder_new` (src/lolhtml.c:530-553) leaves
it: a registry slot, an empty uservalue table, no native registrations yet. -/
def freshBuilder (ref : Nat) : BuilderState :=
  { builderRef := ref, uv := [], nativeRegs := [] }

/-- A handler table with only `comment_handler` set, to the function `f`. -/
def commentOnlyTable (f : Nat) : HandlerTable :=
  { doctype_handler := .nil, comment_handler := .fn f,
    text_handler := .nil, doc_end_handler := .nil }

/-- C7 counterexample: attaching a document-level comment handler twice on the
same builder does not overwrite — after the two calls the builder has passed
two registrations carrying a comment handler to the native engine, and the
first registration (callback slot 0) is still there alongside the second
(callback slot 2), refuting "at most one registration per (builder, event
kind)". -/
theorem c7_counterexample :
    ¬ (((rewriter_builder_add_document_content_handlers
          (rewriter_builder_add_document_content_handlers (freshBuilder 0)
            (commentOnlyTable 10))
          (commentOnlyTable 20)).nativeRegs.filter (fun r => r.comment.isSome)).length ≤ 1)
    ∧ (rewriter_builder_add_document_content_handlers
          (rewriter_builder_add_document_content_handlers (freshBuilder 0)
            (commentOnlyTable 10))
          (commentOnlyTable 20)).nativeRegs.map (fun r => r.comment)
        = [some ⟨0, 0⟩, some ⟨0, 2⟩] := by
  refine ⟨by decide, by decide⟩

theorem create_handler_uv_extends (builderRef : Nat) (uv : List Anchor) (field : LuaValue) :
    ∃ t, (create_handler builderRef uv field).2 = uv ++ t := by
  cases field with
  | fn f =>
      exact ⟨[Anchor.func f, Anchor.hdata ⟨builderRef, uv.length⟩],
        by simp [create_handler, luaL_ref]⟩
  | nil => exact ⟨[], by simp [create_handler]⟩
  | boolean b => exact ⟨[], by simp [create_handler]⟩
  | int n => exact ⟨[], by simp [create_handler]⟩
  | numNonInt => exact ⟨[], by simp [create_handler]⟩
  | str s => exact ⟨[], by simp [create_handler]⟩
  | other => exact ⟨[], by simp [create_handler]⟩

/-- C7 as amended: each `add_document_content_handlers` call passes one new
registration to the native engine, appended after the registrations already
made, and only extends the builder's uservalue anchors — an earlier
registration for the same event kind is neither removed nor overwritten and
its callback stays anchored. -/
theorem c7_amended_registrations_append (b : BuilderState) (tbl : HandlerTable) :
    (∃ r, (rewriter_builder_add_document_content_handlers b tbl).nativeRegs
        = b.nativeRegs ++ [r])
    ∧ (∃ t, (rewriter_builder_add_document_content_handlers b tbl).uv = b.uv ++ t) := by
  constructor
  · exact ⟨_, rfl⟩
  · obtain ⟨t₁, h₁⟩ := create_handler_uv_extends b.builderRef b.uv tbl.doctype_handler
    obtain ⟨t₂, h₂⟩ := create_handler_uv_extends b.builderRef
      (create_handler b.builderRef b.uv tbl.doctype_handler).2 tbl.comment_handler
    obtain ⟨t₃, h₃⟩ := create_handler_uv_extends b.builderRef
      (create_handler b.builderRef
        (create_handler b.builderRef b.uv tbl.doctype_handler).2 tbl.comment_handler).2
      tbl.text_handler
    obtain ⟨t₄, h₄⟩ := create_handler_uv_extends b.builderRef
      (create_handler b.builderRef
        (create_handler b.builderRef
          (create_handler b.builderRef b.uv tbl.doctype_handler).2 tbl.comment_handler).2
        tbl.text_handler).2 tbl.doc_end_handler
    refine ⟨t₁ ++ t₂ ++ t₃ ++ t₄, ?_⟩
    simp only [rewriter_builder_add_document_content_handlers]
    rw [h₄, h₃, h₂, h₁]
    simp [List.append_assoc]

/-- C8: for every event kind whose entry in the table passed at registration
is absent (reads as `nil`), the registration handed to the native engine in
that `add_document_content_handlers` call carries `NULL` for that kind — so
the engine has no bridge entry point to invoke for that kind from this
builder's registration. -/
theorem c8_absent_entry_null_registration (b : BuilderState) (tbl : HandlerTable)
    (k : DocEventKind) (h : tbl.field k = LuaValue.nil) :
    ((rewriter_builder_add_document_content_handlers b tbl).nativeRegs.getLast?).map
        (fun r => r.field k) = some none := by
  cases k <;>
    · simp only [HandlerTable.field] at h
      simp [rewriter_builder_add_document_content_handlers, h, create_handler,
        NativeReg.field, List.getLast?_append]

/-- C8 witness: a table with only a comment handler yields `NULL` doctype,
text and doc-end registrations on a concrete builder. -/
theorem c8_witness :
    ((rewriter_builder_add_document_content_handlers (freshBuilder 0)
        (commentOnlyTable 10)).nativeRegs.getLast?).map
          (fun r => r.field DocEventKind.text) = some none := by
  exact c8_absent_entry_null_registration (freshBuilder 0) (commentOnlyTable 10)
    DocEventKind.text rfl

theorem runIter_none (calls : List IterCall) : runIter none calls = (none, 0) := by
  induction calls with
  | nil => rfl
  | cons c cs ih =>
      cases c with
      | next => simp [runIter, stepIter, attribute_iterator_next, ih]
      | destroy => simp [runIter, stepIter, attribute_iterator_destroy, ih]

theorem runIter_append (box : Option NativeAttrIter) (xs ys : List IterCall) :
    runIter box (xs ++ ys)
      = ((runIter (runIter box xs).1 ys).1,
          (runIter box xs).2 + (runIter (runIter box xs).1 ys).2) := by
  induction xs generalizing box with
  | nil => simp [runIter]
  | cons c cs ih =>
      simp [runIter, ih]
      omega

/-- C9: starting from a live attribute iterator, along every sequence of
`next` calls and finalizations, the native iterator is freed exactly once when
the boxed pointer ends up `NULL`-ed and never before; and appending the
finalizer (which the host garbage collector eventually runs, also on early
abandonment) always ends with the pointer `NULL`-ed — so the native iterator
is released exactly once whether iteration reaches end-of-sequence or is
abandoned early. -/
theorem c9_iterator_freed_exactly_once (attrs : NativeAttrIter) (calls : List IterCall) :
    (runIter (some attrs) calls).2
        = (if (runIter (some attrs) calls).1 = none then 1 else 0)
    ∧ (runIter (some attrs) (calls ++ [IterCall.destroy])).1 = none := by
  constructor
  · induction calls generalizing attrs with
    | nil => simp [runIter]
    | cons c cs ih =>
        cases c with
        | next =>
            cases attrs with
            | nil =>
                have hstep : stepIter (some []) .next = (none, 1) := rfl
                simp [runIter, hstep, runIter_none]
            | cons a rest =>
                have hstep : stepIter (some (a :: rest)) .next = (some rest, 0) := rfl
                simp [runIter, hstep, ih rest]
        | destroy =>
            have hstep : stepIter (some attrs) .destroy = (none, 1) := rfl
            simp [runIter, hstep, runIter_none]
  · rw [runIter_append]
    cases h : (runIter (some attrs) calls).1 with
    | none => simp [runIter, stepIter, attribute_iterator_destroy]
    | some l => simp [runIter, stepIter, attribute_iterator_destroy]

/-- C10: once an attribute iterator has reported end-of-sequence (a `next`
call that returned `nil`) or has been finalized, its boxed native pointer is
`NULL`-ed, and any further `next` call raises the use-past-lifetime error
while performing no native free (no double free) and no native dereference. -/
theorem c10_iterator_use_after_release :
    (∀ attrs : NativeAttrIter, attribute_iterator_destroy (some attrs) = (none, 1))
    ∧ attribute_iterator_next (some []) = (IterRet.nilRet, none, 1)
    ∧ attribute_iterator_next none = (IterRet.raised lifetimeErrorMsg, none, 0) := by
  exact ⟨fun attrs => rfl, rfl, rfl⟩
